import Mathlib

/-!
Verification development for the Travel Explorer backend.

The source is a small FastAPI application (`main.py`) exposing mock
travel-search endpoints (flights, hotels, trains), a search-logging
endpoint, a recent-searches listing and a diagnostic endpoint, on top of
a generic document-persistence layer (`database.py`, which provides
`create_document`, `get_documents` and the handle `db`).

This file shallowly embeds the endpoint handlers of `main.py` as pure
Lean functions.  Effects are made explicit:

* the persistence functions `create_document` / `get_documents` from
  `database.py` enter each handler as an explicit argument whose result
  type `Except String _` models Python exceptions (`Except.error e`
  models a raised exception whose `str` is `e`);
* an endpoint that can raise `HTTPException` returns
  `Except HTTPException _`; a handler whose Lean embedding is a total
  function into a plain response type models a handler that always
  answers 200 and never raises;
* Python `float` literals are embedded as rationals (all price and
  rating arithmetic in the source is on exact literals);
* Python strings are Lean strings; `str.upper()` and `str.title()` are
  embedded for the ASCII range, which is the range the source's
  semantics exercises.
-/

namespace TravelExplorer

/-- ASCII model of Python `str.upper()`: upper-case each letter. -/
def pyUpper (s : String) : String :=
  (s.data.map Char.toUpper).asString

/-- Helper for `pyTitle`: walk the characters carrying whether the
previous character was a letter (a cased character in ASCII).  A letter
that follows a non-letter is upper-cased, a letter that follows a letter
is lower-cased, every other character is kept. -/
def titleAux : List Char → Bool → List Char
  | [], _ => []
  | c :: cs, prevAlpha =>
    (if c.isAlpha then (if prevAlpha then c.toLower else c.toUpper) else c)
      :: titleAux cs c.isAlpha

/-- ASCII model of Python `str.title()`. -/
def pyTitle (s : String) : String :=
  (titleAux s.data false).asString

/-- The request body of `POST /api/search` (`SearchQuery` in `main.py`):
a required `type` and six optional string fields. -/
structure SearchQuery where
  type : String
  origin : Option String
  destination : Option String
  date : Option String
  city : Option String
  checkin : Option String
  checkout : Option String
deriving DecidableEq, Repr

/-- `FlightOption` response model of `main.py`. -/
structure FlightOption where
  airline : String
  flight_number : String
  depart_time : String
  arrive_time : String
  duration : String
  price : ℚ
  origin : String
  destination : String
deriving DecidableEq, Repr

/-- `HotelOption` response model of `main.py`. -/
structure HotelOption where
  name : String
  location : String
  rating : ℚ
  price_per_night : ℚ
  image : Option String
deriving DecidableEq, Repr

/-- `TrainOption` response model of `main.py`. -/
structure TrainOption where
  train_name : String
  train_number : String
  depart_time : String
  arrive_time : String
  duration : String
  price : ℚ
  origin : String
  destination : String
deriving DecidableEq, Repr

/-- A raised `fastapi.HTTPException`, as used in `main.py`:
`HTTPException(status_code=500, detail=str(e))`. -/
structure HTTPException where
  status_code : Nat
  detail : String
deriving DecidableEq, Repr

/-- The success body of `POST /api/search`: the dict
`{"status": "ok", "id": doc_id}`. -/
structure CreateSearchResult where
  status : String
  id : String
deriving DecidableEq, Repr

/-- A storage-native record identifier (`_id`).  An `oid` is a MongoDB
`ObjectId` carrying its `str()` rendering; a `str` is an identifier that
is already a plain string (as after stringification). -/
inductive BsonId where
  | oid : String → BsonId
  | str : String → BsonId
deriving DecidableEq, Repr

/-- Python `str(_id)`. -/
def BsonId.toStr : BsonId → String
  | .oid s => s
  | .str s => s

/-- A value stored under the `created_at` key.  A `str` is a plain
string (it has no `isoformat` attribute); a `dt` is a `datetime` object
carrying the string its `isoformat()` returns. -/
inductive CreatedAt where
  | str : String → CreatedAt
  | dt : String → CreatedAt
deriving DecidableEq, Repr

/-- A record of the document store as seen by `list_recent_searches`:
the two keys the handler inspects (`_id` and `created_at`, both possibly
absent) plus the remaining key/value pairs, which the handler never
touches. -/
structure StoredDoc where
  «_id» : Option BsonId
  created_at : Option CreatedAt
  fields : List (String × String)
deriving DecidableEq, Repr

/-- The body of `GET /api/searches`: the dict `{"items": docs}`. -/
structure SearchesResponse where
  items : List StoredDoc
deriving DecidableEq, Repr

/-- The per-record conversion loop of `list_recent_searches`
(`main.py` lines 120-124): stringify `_id` when present and replace a
`created_at` that has an `isoformat` attribute by that ISO string. -/
def materializeDoc (d : StoredDoc) : StoredDoc :=
  { d with
    «_id» :=
      match d.«_id» with
      | some v => some (BsonId.str v.toStr)
      | none => none,
    created_at :=
      match d.created_at with
      | some (CreatedAt.dt s) => some (CreatedAt.str s)
      | other => other }

/-- The sort key of `list_recent_searches`
(`lambda x: x.get("created_at", "")`): the `created_at` string of a
materialized record, or `""` when the key is missing. -/
def docKey (d : StoredDoc) : String :=
  match d.created_at with
  | some (CreatedAt.str s) => s
  | some (CreatedAt.dt s) => s
  | none => ""

/-- Stable insertion of `x` into a list sorted by `key` descending:
`x` goes after every element whose key is `≥` its own, so that elements
with equal keys keep their original order. -/
def insertDesc (key : α → String) (x : α) : List α → List α
  | [] => [x]
  | y :: ys => if key y < key x then x :: y :: ys else y :: insertDesc key x ys

/-- Stable descending sort by `key`; as a function on lists this is
exactly Python's stable `list.sort(key=key, reverse=True)`. -/
def sortDesc (key : α → String) : List α → List α
  | [] => []
  | x :: xs => insertDesc key x (sortDesc key xs)

/-- Modelled from the spec: `get_documents` lives in `database.py`,
which is not part of the source tree; per spec §4.3 it "queries the
named collection for records matching filter (empty filter = match
all), returns at most `limit` raw stored records" and "fails with
`StorageUnavailable` if the connector has no live handle".  The handle,
when available, is modelled as the map from collection names to their
record lists. -/
def get_documents (handle : Option (String → List StoredDoc)) (collection : String)
    (filter : StoredDoc → Bool) (limit : Nat) : Except String (List StoredDoc) :=
  match handle with
  | none => Except.error ("StorageUnavailable")
  | some store => Except.ok (((store collection).filter filter).take limit)

/-- Handler of `POST /api/search` (`create_search` in `main.py`):
pass the parsed body to `create_document("search", ·)`; on success
answer `{"status": "ok", "id": doc_id}`, on any exception raise
`HTTPException(status_code=500, detail=str(e))`. -/
def create_search (persist : SearchQuery → Except String String)
    (search : SearchQuery) : Except HTTPException CreateSearchResult :=
  match persist search with
  | Except.ok doc_id => Except.ok { status := "ok", id := doc_id }
  | Except.error e => Except.error { status_code := 500, detail := e }

/-- Handler of `GET /api/searches` (`list_recent_searches` in
`main.py`), applied to the outcome of
`get_documents("search", {}, limit=limit)`: on success materialize each
record and sort by `created_at` descending; on any exception raise
`HTTPException(status_code=500, detail=str(e))`. -/
def list_recent_searches (fetch : Except String (List StoredDoc)) :
    Except HTTPException SearchesResponse :=
  match fetch with
  | Except.ok docs => Except.ok ⟨sortDesc docKey (docs.map materializeDoc)⟩
  | Except.error e => Except.error ⟨500, e⟩

/-- `GET /api/searches` end to end: the handler on top of the
spec-modelled `get_documents` with the empty filter. -/
def api_searches (handle : Option (String → List StoredDoc)) (limit : Nat) :
    Except HTTPException SearchesResponse :=
  list_recent_searches (get_documents handle ("search") (fun _ => true) limit)

/-- `base_price` of `search_flights`. -/
def base_price : ℚ := 79

/-- The dict literal `search_flights` passes to
`create_document("search", ...)`: the raw query parameters, casing
untouched. -/
def flightsLogDoc (origin destination date : String) : List (String × String) :=
  [("type", "flights"), ("origin", origin), ("destination", destination),
   ("date", date)]

/-- The dict literal `search_hotels` passes to `create_document`. -/
def hotelsLogDoc (city checkin checkout : String) : List (String × String) :=
  [("type", "hotels"), ("city", city), ("checkin", checkin),
   ("checkout", checkout)]

/-- The dict literal `search_trains` passes to `create_document`. -/
def trainsLogDoc (origin destination date : String) : List (String × String) :=
  [("type", "trains"), ("origin", origin), ("destination", destination),
   ("date", date)]

/-- Handler of `GET /api/search/flights`: build the three fixed mock
entries, then attempt `create_document` inside `try: ... except: pass`
(the outcome `_log` is discarded whether it is a success or a raised
exception), then return the mock list. -/
def search_flights (persist : List (String × String) → Except String String)
    (origin destination date : String) : List FlightOption :=
  let flights : List FlightOption :=
    [ { airline := "SkyJet", flight_number := "SJ201",
        depart_time := date ++ "T06:30", arrive_time := date ++ "T09:05",
        duration := "2h 35m", price := base_price + 20,
        origin := pyUpper origin, destination := pyUpper destination },
      { airline := "AeroWings", flight_number := "AW318",
        depart_time := date ++ "T10:15", arrive_time := date ++ "T12:55",
        duration := "2h 40m", price := base_price + 35,
        origin := pyUpper origin, destination := pyUpper destination },
      { airline := "CloudAir", flight_number := "CA722",
        depart_time := date ++ "T19:45", arrive_time := date ++ "T22:25",
        duration := "2h 40m", price := base_price + 10,
        origin := pyUpper origin, destination := pyUpper destination } ]
  let _log := persist (flightsLogDoc origin destination date)
  flights

/-- Handler of `GET /api/search/hotels`: three fixed mock entries with
`location = city.title()`, best-effort logging as in `search_flights`. -/
def search_hotels (persist : List (String × String) → Except String String)
    (city checkin checkout : String) : List HotelOption :=
  let hotels : List HotelOption :=
    [ { name := "Grand Central Hotel", location := pyTitle city,
        rating := 4.5, price_per_night := 129,
        image := some ("https://images.unsplash.com/photo-1542314831-068cd1dbfeeb?q=80&w=1200&auto=format&fit=crop") },
      { name := "Urban Stay Boutique", location := pyTitle city,
        rating := 4.2, price_per_night := 99,
        image := some ("https://images.unsplash.com/photo-1496412705862-e0088f16f791?q=80&w=1200&auto=format&fit=crop") },
      { name := "Skyline Suites", location := pyTitle city,
        rating := 4.8, price_per_night := 189,
        image := some ("https://images.unsplash.com/photo-1502920917128-1aa500764cbd?q=80&w=1200&auto=format&fit=crop") } ]
  let _log := persist (hotelsLogDoc city checkin checkout)
  hotels

/-- Handler of `GET /api/search/trains`: two fixed mock entries,
best-effort logging as in `search_flights`. -/
def search_trains (persist : List (String × String) → Except String String)
    (origin destination date : String) : List TrainOption :=
  let trains : List TrainOption :=
    [ { train_name := "Express Line", train_number := "EX123",
        depart_time := date ++ "T07:10", arrive_time := date ++ "T13:30",
        duration := "6h 20m", price := 24,
        origin := pyUpper origin, destination := pyUpper destination },
      { train_name := "Rapid Rider", train_number := "RR452",
        depart_time := date ++ "T15:00", arrive_time := date ++ "T21:10",
        duration := "6h 10m", price := 27.5,
        origin := pyUpper origin, destination := pyUpper destination } ]
  let _log := persist (trainsLogDoc origin destination date)
  trains

/-- Whether each of `DATABASE_URL` / `DATABASE_NAME` is set (truthy) in
the process environment. -/
structure Env where
  database_url : Bool
  database_name : Bool
deriving DecidableEq, Repr

/-- The handle `db` when it is not `None`: its optional `name`
attribute (`hasattr(db, "name")`) and the outcome of the probe
`db.list_collection_names()` (`Except.error e` models a raised
exception with `str(e) = e`). -/
structure DbHandle where
  name : Option String
  list_collection_names : Except String (List String)
deriving Repr

/-- The diagnostic object returned by `GET /test`.  `database_url` and
`database_name` start as Python `None`, hence `Option String`. -/
structure TestResponse where
  backend : String
  database : String
  database_url : Option String
  database_name : Option String
  connection_status : String
  collections : List String
deriving DecidableEq, Repr

/-- Handler of `GET /test` (`test_database` in `main.py`): start from
the all-unavailable response dict, then mutate it step by step exactly
as the source does, and finally overwrite `database_url` and
`database_name` from the environment variables alone.  The function is
total in the state of the handle and of the probe: every failure mode
ends in a response, never in an exception. -/
def test_database (env : Env) (db : Option DbHandle) : TestResponse :=
  let response : TestResponse :=
    { backend := "✅ Running", database := "❌ Not Available",
      database_url := none, database_name := none,
      connection_status := "Not Connected", collections := [] }
  let response :=
    match db with
    | some h =>
      let response :=
        { response with
          database := "✅ Available",
          database_url := some ("✅ Configured"),
          database_name := some (match h.name with
            | some n => n
            | none => "✅ Connected"),
          connection_status := "Connected" }
      match h.list_collection_names with
      | Except.ok collections =>
        { response with collections := collections.take 10,
                        database := "✅ Connected & Working" }
      | Except.error e =>
        { response with database := "⚠️ Connected but Error: " ++ e.take 50 }
    | none => { response with database := "⚠️ Available but not initialized" }
  { response with
    database_url := some (if env.database_url then "✅ Set" else "❌ Not Set"),
    database_name := some (if env.database_name then "✅ Set" else "❌ Not Set") }

/-! ## Helper lemmas about the stable descending sort -/

theorem mem_insertDesc (key : α → String) (x : α) (l : List α) (z : α)
    (hz : z ∈ insertDesc key x l) : z = x ∨ z ∈ l := by
  induction l with
  | nil => simpa [insertDesc] using hz
  | cons y ys ih =>
    by_cases hlt : key y < key x
    · simp only [insertDesc, if_pos hlt] at hz
      rcases List.mem_cons.mp hz with h | h
      · exact Or.inl h
      · exact Or.inr h
    · simp only [insertDesc, if_neg hlt] at hz
      rcases List.mem_cons.mp hz with h | h
      · exact Or.inr (List.mem_cons.mpr (Or.inl h))
      · rcases ih h with h | h
        · exact Or.inl h
        · exact Or.inr (List.mem_cons.mpr (Or.inr h))

theorem pairwise_insertDesc (key : α → String) (x : α) (l : List α)
    (hl : l.Pairwise (fun a b => key b ≤ key a)) :
    (insertDesc key x l).Pairwise (fun a b => key b ≤ key a) := by
  induction l with
  | nil => simp [insertDesc]
  | cons y ys ih =>
    rcases List.pairwise_cons.mp hl with ⟨hy, hys⟩
    by_cases hlt : key y < key x
    · simp only [insertDesc, if_pos hlt]
      refine List.pairwise_cons.mpr ⟨?_, hl⟩
      intro z hz
      rcases List.mem_cons.mp hz with rfl | hz
      · exact le_of_lt hlt
      · exact le_trans (hy z hz) (le_of_lt hlt)
    · simp only [insertDesc, if_neg hlt]
      refine List.pairwise_cons.mpr ⟨?_, ih hys⟩
      intro z hz
      rcases mem_insertDesc key x ys z hz with rfl | hz
      · exact not_lt.mp hlt
      · exact hy z hz

theorem pairwise_sortDesc (key : α → String) (l : List α) :
    (sortDesc key l).Pairwise (fun a b => key b ≤ key a) := by
  induction l with
  | nil => simp [sortDesc]
  | cons x xs ih => exact pairwise_insertDesc key x (sortDesc key xs) ih

theorem length_insertDesc (key : α → String) (x : α) (l : List α) :
    (insertDesc key x l).length = l.length + 1 := by
  induction l with
  | nil => rfl
  | cons y ys ih =>
    by_cases hlt : key y < key x
    · simp only [insertDesc, if_pos hlt, List.length_cons]
    · simp only [insertDesc, if_neg hlt, List.length_cons, ih]

theorem length_sortDesc (key : α → String) (l : List α) :
    (sortDesc key l).length = l.length := by
  induction l with
  | nil => rfl
  | cons x xs ih => simp [sortDesc, length_insertDesc, ih]

/-! ## Claim theorems -/

/-- C1: for every origin, destination and date (and any persistence
behaviour), `GET /api/search/flights` returns exactly 3 flight entries
whose prices are 99, 114 and 89 respectively — the base price 79 plus
20, 35 and 10 — and whose `origin` and `destination` fields equal the
upper-cased query parameters. -/
theorem search_flights_three_fixed_entries
    (persist : List (String × String) → Except String String)
    (origin destination date : String) :
    (search_flights persist origin destination date).length = 3 ∧
    (search_flights persist origin destination date).map FlightOption.price
      = [99, 114, 89] ∧
    (search_flights persist origin destination date).map FlightOption.price
      = [base_price + 20, base_price + 35, base_price + 10] ∧
    (search_flights persist origin destination date).map FlightOption.origin
      = [pyUpper origin, pyUpper origin, pyUpper origin] ∧
    (search_flights persist origin destination date).map FlightOption.destination
      = [pyUpper destination, pyUpper destination, pyUpper destination] := by
  refine ⟨rfl, ?_, rfl, rfl, rfl⟩
  show [base_price + 20, base_price + 35, base_price + 10] = [99, 114, 89]
  norm_num [base_price]

/-- C6: for every city, checkin and checkout (and any persistence
behaviour), `GET /api/search/hotels` returns exactly 3 hotel entries,
each with `location` equal to the title-cased city parameter. -/
theorem search_hotels_three_fixed_entries
    (persist : List (String × String) → Except String String)
    (city checkin checkout : String) :
    (search_hotels persist city checkin checkout).length = 3 ∧
    (search_hotels persist city checkin checkout).map HotelOption.location
      = [pyTitle city, pyTitle city, pyTitle city] :=
  ⟨rfl, rfl⟩

/-- C3: the three mock search endpoints return their full fixed mock
result lists whatever `create_document` does — any two persistence
behaviours, including ones that raise (`Except.error`), yield the very
same response, and the responses always carry 3, 3 and 2 entries.  The
handlers are total functions into plain response lists, so they always
answer 200. -/
theorem mock_searches_ignore_persistence_failures
    (p1 p2 : List (String × String) → Except String String)
    (origin destination date city checkin checkout : String) :
    search_flights p1 origin destination date
      = search_flights p2 origin destination date ∧
    search_hotels p1 city checkin checkout
      = search_hotels p2 city checkin checkout ∧
    search_trains p1 origin destination date
      = search_trains p2 origin destination date ∧
    (search_flights p1 origin destination date).length = 3 ∧
    (search_hotels p1 city checkin checkout).length = 3 ∧
    (search_trains p1 origin destination date).length = 2 :=
  ⟨rfl, rfl, rfl, rfl, rfl, rfl⟩

/-- C10: the payloads `search_flights` and `search_trains` hand to
`create_document` keep `origin`, `destination` and `date` exactly as
received (original casing), while the HTTP responses upper-case
`origin` and `destination`; hence stored record and returned entries
differ whenever the input is not already upper-case. -/
theorem logged_search_keeps_original_casing
    (persist : List (String × String) → Except String String)
    (origin destination date : String) :
    ((flightsLogDoc origin destination date).lookup ("origin") = some origin ∧
     (flightsLogDoc origin destination date).lookup ("destination")
       = some destination ∧
     (flightsLogDoc origin destination date).lookup ("date") = some date) ∧
    ((trainsLogDoc origin destination date).lookup ("origin") = some origin ∧
     (trainsLogDoc origin destination date).lookup ("destination")
       = some destination ∧
     (trainsLogDoc origin destination date).lookup ("date") = some date) ∧
    (search_flights persist origin destination date).map FlightOption.origin
      = [pyUpper origin, pyUpper origin, pyUpper origin] ∧
    (search_trains persist origin destination date).map TrainOption.origin
      = [pyUpper origin, pyUpper origin] ∧
    (origin ≠ pyUpper origin →
      (flightsLogDoc origin destination date).lookup ("origin")
        ≠ some (pyUpper origin) ∧
      (trainsLogDoc origin destination date).lookup ("origin")
        ≠ some (pyUpper origin)) := by
  have hf : (flightsLogDoc origin destination date).lookup ("origin")
      = some origin := rfl
  have ht : (trainsLogDoc origin destination date).lookup ("origin")
      = some origin := rfl
  refine ⟨⟨rfl, rfl, rfl⟩, ⟨rfl, rfl, rfl⟩, rfl, rfl, ?_⟩
  intro h
  refine ⟨?_, ?_⟩
  · rw [hf]
    exact fun hc => h (Option.some.inj hc)
  · rw [ht]
    exact fun hc => h (Option.some.inj hc)

/-- Witness for C10 at the spec's example input `lax`/`jfk`: the
lower-case origin differs from its upper-cased form, so the stored
payload's origin is not the response's origin. -/
theorem logged_search_keeps_original_casing_spot :
    ("lax" ≠ pyUpper ("lax")) ∧
    (flightsLogDoc ("lax") ("jfk") ("2024-05-01")).lookup ("origin")
      ≠ some (pyUpper ("lax")) :=
  ⟨by decide,
   ((logged_search_keeps_original_casing (fun _ => Except.ok ("id"))
      ("lax") ("jfk") ("2024-05-01")).2.2.2.2 (by decide)).1⟩

/-- C2: on a successful fetch, `GET /api/searches` returns the stored
records ordered by `created_at` descending — for any two returned
records A before B, A's sort key is ≥ B's — where a record missing
`created_at` takes the key `""` and therefore sorts last. -/
theorem list_recent_searches_sorted_desc (docs : List StoredDoc) :
    (∃ resp, list_recent_searches (Except.ok docs) = Except.ok resp ∧
      resp.items.Pairwise (fun a b => docKey b ≤ docKey a)) ∧
    (∀ d : StoredDoc, d.created_at = none → docKey d = "") := by
  refine ⟨⟨⟨sortDesc docKey (docs.map materializeDoc)⟩, rfl,
    pairwise_sortDesc docKey (docs.map materializeDoc)⟩, ?_⟩
  intro d hd
  simp [docKey, hd]

/-- Witness for C2: a two-record store, one record missing
`created_at`, lists in sorted order and the keyless record keys as
`""`. -/
theorem list_recent_searches_sorted_desc_spot :
    (∃ resp,
      list_recent_searches (Except.ok
        [⟨none, none, []⟩,
         ⟨some (BsonId.oid ("65f2")), some (CreatedAt.dt ("2024-05-01T10:00:00")), []⟩])
        = Except.ok resp ∧
      resp.items.Pairwise (fun a b => docKey b ≤ docKey a)) ∧
    docKey ⟨none, none, []⟩ = "" :=
  ⟨(list_recent_searches_sorted_desc
      [⟨none, none, []⟩,
       ⟨some (BsonId.oid ("65f2")), some (CreatedAt.dt ("2024-05-01T10:00:00")), []⟩]).1,
   (list_recent_searches_sorted_desc []).2 ⟨none, none, []⟩ rfl⟩

/-- C7: the spec-modelled `get_documents` returns at most `limit`
records for every `limit` in [1,50]; hence `GET /api/searches` — whose
`limit` query parameter FastAPI constrains to 1–50 with default 10 —
returns at most `limit` items. -/
theorem get_documents_respects_limit (store : String → List StoredDoc)
    (collection : String) (filter : StoredDoc → Bool) (limit : Nat)
    (h1 : 1 ≤ limit) (h2 : limit ≤ 50) :
    (∃ docs, get_documents (some store) collection filter limit
        = Except.ok docs ∧ docs.length ≤ limit) ∧
    (∃ resp, api_searches (some store) limit = Except.ok resp ∧
      resp.items.length ≤ limit) := by
  refine ⟨⟨((store collection).filter filter).take limit, rfl, ?_⟩,
    ⟨⟨sortDesc docKey
        ((((store ("search")).filter (fun _ => true)).take limit).map
          materializeDoc)⟩, rfl, ?_⟩⟩
  · exact List.length_take_le limit ((store collection).filter filter)
  · show (sortDesc docKey _).length ≤ limit
    rw [length_sortDesc, List.length_map]
    exact List.length_take_le limit ((store ("search")).filter (fun _ => true))

/-- Witness for C7 at `limit = 10` over a one-collection store. -/
theorem get_documents_respects_limit_spot :
    ∃ docs, get_documents (some (fun _ => [⟨none, none, []⟩])) ("search")
        (fun _ => true) 10 = Except.ok docs ∧ docs.length ≤ 10 :=
  (get_documents_respects_limit (fun _ => [⟨none, none, []⟩]) ("search")
    (fun _ => true) 10 (by decide) (by decide)).1

/-- C4: `POST /api/search` answers `{"status": "ok", "id": doc_id}`
when `create_document` succeeds, and raises HTTP 500 carrying the
underlying error message exactly when `create_document` raises;
`GET /api/searches` propagates storage failures the same way. -/
theorem search_logging_propagates_storage_failures
    (persist : SearchQuery → Except String String) (sq : SearchQuery)
    (fetch : Except String (List StoredDoc)) (i e : String) :
    (persist sq = Except.ok i →
      create_search persist sq = Except.ok ⟨"ok", i⟩) ∧
    (persist sq = Except.error e →
      create_search persist sq = Except.error ⟨500, e⟩) ∧
    (fetch = Except.error e →
      list_recent_searches fetch = Except.error ⟨500, e⟩) := by
  refine ⟨?_, ?_, ?_⟩ <;> intro h <;>
    simp [create_search, list_recent_searches, h]

/-- Witness for C4: a failing `create_document` turns into a 500 with
the raised message, and so does a failing fetch for the listing. -/
theorem search_logging_propagates_storage_failures_spot :
    create_search (fun _ => Except.error ("boom"))
      ⟨"flights", none, none, none, none, none, none⟩
      = Except.error ⟨500, "boom"⟩ ∧
    list_recent_searches (Except.error ("down"))
      = Except.error ⟨500, "down"⟩ :=
  ⟨(search_logging_propagates_storage_failures
      (fun _ => Except.error ("boom"))
      ⟨"flights", none, none, none, none, none, none⟩
      (Except.error ("down")) ("") ("boom")).2.1 rfl,
   (search_logging_propagates_storage_failures
      (fun _ => Except.error ("boom"))
      ⟨"flights", none, none, none, none, none, none⟩
      (Except.error ("down")) ("") ("down")).2.2 rfl⟩

/-- C9: `POST /api/search` does not validate `type`: the payload goes
to `create_document` unchanged — the probing persistence functions in
the first two conjuncts receive the exact `type` value of the body —
and for every string `t` put in `type` the endpoint succeeds or fails
exactly as `create_document` does. -/
theorem create_search_accepts_any_type
    (persist : SearchQuery → Except String String) (sq : SearchQuery)
    (t i e : String) :
    create_search (fun s => Except.error s.type) sq
      = Except.error ⟨500, sq.type⟩ ∧
    create_search (fun s => Except.ok s.type) sq
      = Except.ok ⟨"ok", sq.type⟩ ∧
    (persist {sq with type := t} = Except.ok i →
      create_search persist {sq with type := t} = Except.ok ⟨"ok", i⟩) ∧
    (persist {sq with type := t} = Except.error e →
      create_search persist {sq with type := t} = Except.error ⟨500, e⟩) := by
  refine ⟨rfl, rfl, ?_, ?_⟩ <;> intro h <;> simp [create_search, h]

/-- Witness for C9: a body whose `type` is the out-of-enum string
`bogus` is accepted whenever persistence succeeds. -/
theorem create_search_accepts_any_type_spot :
    create_search (fun _ => Except.ok ("id1"))
      {(⟨"flights", none, none, none, none, none, none⟩ : SearchQuery) with
        type := "bogus"}
      = Except.ok ⟨"ok", "id1"⟩ :=
  (create_search_accepts_any_type (fun _ => Except.ok ("id1"))
    ⟨"flights", none, none, none, none, none, none⟩
    ("bogus") ("id1") ("")).2.2.1 rfl

/-- C5: `GET /test` is a total function of the environment and of every
state of the handle (absent, present, probe raising) — no state makes
it raise — every failure mode degrades to a descriptive status string
in the `database` field, and `collections` carries at most 10 names. -/
theorem test_database_never_raises (env : Env) (db : Option DbHandle) :
    (test_database env db).backend = "✅ Running" ∧
    (test_database env db).collections.length ≤ 10 ∧
    (db = none →
      (test_database env db).database = "⚠️ Available but not initialized") ∧
    (∀ h : DbHandle, db = some h →
      (∀ e, h.list_collection_names = Except.error e →
        (test_database env db).database
          = "⚠️ Connected but Error: " ++ e.take 50) ∧
      (∀ cols, h.list_collection_names = Except.ok cols →
        (test_database env db).database = "✅ Connected & Working" ∧
        (test_database env db).collections = cols.take 10)) := by
  obtain _ | ⟨nm, lcn⟩ := db
  · refine ⟨rfl, by simp [test_database], fun _ => rfl, ?_⟩
    intro h hcontra
    exact absurd hcontra (by simp)
  · cases lcn with
    | error e =>
      refine ⟨rfl, by simp [test_database], ?_, ?_⟩
      · intro hcontra
        exact absurd hcontra (by simp)
      · intro h hh
        obtain rfl : (⟨nm, Except.error e⟩ : DbHandle) = h := Option.some.inj hh
        refine ⟨?_, ?_⟩
        · intro e2 he2
          obtain rfl : e = e2 := Except.error.inj he2
          rfl
        · intro cols hc
          exact absurd hc (by simp)
    | ok cols =>
      refine ⟨rfl, ?_, ?_, ?_⟩
      · show (cols.take 10).length ≤ 10
        exact List.length_take_le 10 cols
      · intro hcontra
        exact absurd hcontra (by simp)
      · intro h hh
        obtain rfl : (⟨nm, Except.ok cols⟩ : DbHandle) = h := Option.some.inj hh
        refine ⟨?_, ?_⟩
        · intro e2 he2
          exact absurd he2 (by simp)
        · intro cols2 hc
          obtain rfl : cols = cols2 := Except.ok.inj hc
          exact ⟨rfl, rfl⟩

/-- Witness for C5: no handle degrades to the `not initialized`
status; a handle whose probe raises `boom` degrades to the truncated
error status; both responses are produced, not raised. -/
theorem test_database_never_raises_spot :
    (test_database ⟨true, false⟩ none).database
      = "⚠️ Available but not initialized" ∧
    (test_database ⟨true, false⟩
        (some ⟨some ("travel"), Except.error ("boom")⟩)).database
      = "⚠️ Connected but Error: " ++ ("boom").take 50 ∧
    (test_database ⟨true, false⟩
        (some ⟨some ("travel"), Except.error ("boom")⟩)).collections.length
      ≤ 10 :=
  ⟨(test_database_never_raises ⟨true, false⟩ none).2.2.1 rfl,
   ((test_database_never_raises ⟨true, false⟩
      (some ⟨some ("travel"), Except.error ("boom")⟩)).2.2.2
      ⟨some ("travel"), Except.error ("boom")⟩ rfl).1 ("boom") rfl,
   (test_database_never_raises ⟨true, false⟩
      (some ⟨some ("travel"), Except.error ("boom")⟩)).2.1⟩

/-- C8: the `database_url` and `database_name` fields of the `GET
/test` response are functions of the environment alone — any two handle
states under the same environment yield identical values, namely the
env-derived `Set` / `Not Set` strings, independently of whether the
connection succeeded. -/
theorem test_env_fields_independent_of_db (env : Env)
    (db1 db2 : Option DbHandle) :
    (test_database env db1).database_url
      = (test_database env db2).database_url ∧
    (test_database env db1).database_name
      = (test_database env db2).database_name ∧
    (test_database env db1).database_url
      = some (if env.database_url then "✅ Set" else "❌ Not Set") ∧
    (test_database env db1).database_name
      = some (if env.database_name then "✅ Set" else "❌ Not Set") :=
  ⟨rfl, rfl, rfl, rfl⟩

end TravelExplorer
